import Mathlib

/-!
Shallow embedding of the Google Drive import subsystem of the data_room
frontend (React/TypeScript), together with the pieces of the backend import
pipeline that the repository's spec describes but whose code is not part of
the frontend sources.  Definitions follow the TypeScript source files:

* `src/frontend/src/services/api.ts` — axios wrapper and interceptors;
* `src/frontend/src/services/googleDriveService.ts` — Drive API client;
* `GoogleDrivePage.tsx` — page state, selection toggling, import dialog
  and the client-side fallback import reports;
* the shared `types.ts` interfaces (`GoogleDriveImportRequest`,
  `GoogleDriveImportResult`, `GoogleDriveConnectionStatus`, ...).
-/

namespace DataRoom

/-- `GoogleDriveConnectionStatus` from `types.ts`:
`{ connected: boolean; user_email: string | null }`. -/
structure GoogleDriveConnectionStatus where
  connected : Bool
  user_email : Option String
  deriving DecidableEq, Repr

/-- One element of `skipped_items` in `GoogleDriveImportResult`:
`{ id: string; name: string; error: string }`. -/
structure SkippedItem where
  id : String
  name : String
  error : String
  deriving DecidableEq, Repr

/-- `GoogleDriveImportResult` from `types.ts` (the `ImportReport` shape). -/
structure GoogleDriveImportResult where
  imported_document_ids : List String
  imported_folder_ids : List String
  skipped_items : List SkippedItem
  total_documents_imported : Nat
  total_folders_imported : Nat
  total_skipped : Nat
  deriving DecidableEq, Repr

/-- `GoogleDriveImportRequest` from `types.ts`; the three trailing fields are
optional in TypeScript (`parent_folder_id?`, `include_folders?`,
`max_depth?`), hence `Option`. -/
structure GoogleDriveImportRequest where
  file_ids : List String
  parent_folder_id : Option String
  include_folders : Option Bool
  max_depth : Option Int
  deriving DecidableEq, Repr

/-- The count-consistency invariant of §8 of the spec: each total equals the
length of the corresponding list. -/
def countConsistent (r : GoogleDriveImportResult) : Prop :=
  r.imported_document_ids.length = r.total_documents_imported ∧
  r.imported_folder_ids.length = r.total_folders_imported ∧
  r.skipped_items.length = r.total_skipped

instance (r : GoogleDriveImportResult) : Decidable (countConsistent r) := by
  unfold countConsistent; infer_instance

/-! ### Client-side fallback reports (`GoogleDrivePage.tsx`)

The `useMutation` `onError` callback builds a fixed error report, and the
`catch` branch of `handleImport` builds a report that skips every selected
file. -/

/-- The report built in the import mutation's `onError` handler:
one synthetic skipped item carrying the stringified error. -/
def importMutationErrorResult (error : String) : GoogleDriveImportResult :=
  { imported_document_ids := []
    imported_folder_ids := []
    skipped_items := [{ id := "error", name := "Error", error := error }]
    total_documents_imported := 0
    total_folders_imported := 0
    total_skipped := 1 }

/-- A displayed file as needed by the `handleImport` fallback: the lookup
`filesToDisplay?.find(f => f.id === id)?.name` only touches `id` and `name`. -/
structure DisplayFile where
  id : String
  name : String
  deriving DecidableEq, Repr

/-- `filesToDisplay?.find(f => f.id === id)?.name || 'Unknown file'` —
JavaScript `||` falls back on the empty string as well, since `""` is falsy. -/
def lookupDisplayName (files : Option (List DisplayFile)) (id : String) : String :=
  match files with
  | none => "Unknown file"
  | some fs =>
    match fs.find? (fun f => f.id = id) with
    | none => "Unknown file"
    | some f => if f.name = "" then "Unknown file" else f.name

/-- The fallback report built in the `catch` branch of `handleImport`:
every selected file becomes a skipped item. -/
def handleImportCatchResult (selectedFiles : List String)
    (filesToDisplay : Option (List DisplayFile)) : GoogleDriveImportResult :=
  { imported_document_ids := []
    imported_folder_ids := []
    skipped_items := selectedFiles.map (fun id =>
      { id := id
        name := lookupDisplayName filesToDisplay id
        error := "Internal application error. Please try again." })
    total_documents_imported := 0
    total_folders_imported := 0
    total_skipped := selectedFiles.length }

/-! ### The backend aggregator, modelled from the spec -/

/-- `ImportOutcome` of §3 of the spec: either an imported document, an
imported folder, or a skipped item with a reason. -/
inductive ImportOutcome where
  | importedDoc (localId remoteId : String)
  | importedFolder (localId remoteId : String)
  | skipped (remoteId displayName reason : String)
  deriving DecidableEq, Repr

/-- Modelled from the spec: the backend Import Result Aggregator (§4.4) is not
part of the frontend sources.  Per the spec it is a pure fold consuming the
ordered outcome stream and bucketing it into the `ImportReport` shape of §3,
keeping the counts alongside the lists. -/
def aggregateOutcomes : List ImportOutcome → GoogleDriveImportResult
  | [] =>
    { imported_document_ids := []
      imported_folder_ids := []
      skipped_items := []
      total_documents_imported := 0
      total_folders_imported := 0
      total_skipped := 0 }
  | o :: os =>
    let r := aggregateOutcomes os
    match o with
    | .importedDoc localId _ =>
      { r with
        imported_document_ids := localId :: r.imported_document_ids
        total_documents_imported := r.total_documents_imported + 1 }
    | .importedFolder localId _ =>
      { r with
        imported_folder_ids := localId :: r.imported_folder_ids
        total_folders_imported := r.total_folders_imported + 1 }
    | .skipped remoteId displayName reason =>
      { r with
        skipped_items :=
          { id := remoteId, name := displayName, error := reason } :: r.skipped_items
        total_skipped := r.total_skipped + 1 }

/-- Modelled from the spec: the backend import pipeline (§6, §7) is not part
of the frontend sources.  Per the spec it refuses to run — failing fast with a
`RemoteAuthError`-equivalent top-level error, before producing any outcome —
when the connection status has `connected = false`; otherwise it returns the
aggregated report. -/
def runImport (status : GoogleDriveConnectionStatus)
    (outcomes : List ImportOutcome) : Except String GoogleDriveImportResult :=
  if status.connected then .ok (aggregateOutcomes outcomes)
  else .error "RemoteAuthError"

/-! ### HTTP request construction (`api.ts`, `googleDriveService.ts`) -/

/-- An axios request as assembled by the services: method, URL (relative to
the base URL), query parameters and an optional JSON body.  The body type is
a parameter because different endpoints post different payloads. -/
structure HttpRequest (β : Type) where
  method : String
  url : String
  params : List (String × String)
  data : Option β
  deriving DecidableEq, Repr

/-- `API_PATH` in `api.ts`. -/
def API_PATH : String := "/api/v1"

/-- JavaScript `String.prototype.startsWith`, computed on the character
sequences of the two strings. -/
def jsStartsWith (s prefixStr : String) : Bool :=
  prefixStr.data.isPrefixOf s.data

/-- `apiRequest` in `api.ts` prefixes the URL with `API_PATH` unless it
already starts with it; nothing else about the request changes. -/
def apiRequestUrl (url : String) : String :=
  if jsStartsWith url API_PATH then url else API_PATH ++ url

/-- The single request issued by `apiRequest` for a given config. -/
def apiRequest {β : Type} (r : HttpRequest β) : HttpRequest β :=
  { r with url := apiRequestUrl r.url }

/-- JavaScript truthiness of an optional string: `undefined` and the empty
string are falsy, every other string is truthy. -/
def jsTruthyStr : Option String → Bool
  | none => false
  | some s => s ≠ ""

/-- `listGoogleDriveFiles(folderId?, pageToken?)` from
`googleDriveService.ts`: builds `params` by adding `folder_id` when
`folderId` is truthy and `page_token` when `pageToken` is truthy, then issues
one GET to `/integrations/google/files` through `apiRequest`. -/
def listGoogleDriveFiles (folderId pageToken : Option String) :
    HttpRequest Unit :=
  apiRequest
    { method := "GET"
      url := "/integrations/google/files"
      params :=
        (if jsTruthyStr folderId then [("folder_id", folderId.getD "")] else [])
          ++ (if jsTruthyStr pageToken then [("page_token", pageToken.getD "")] else [])
      data := none }

/-- Whether a request carries a query parameter with the given key. -/
def hasParam {β : Type} (r : HttpRequest β) (key : String) : Bool :=
  r.params.any (fun p => p.1 = key)

/-- `importFromGoogleDrive(request)` from `googleDriveService.ts`: one POST
to `/integrations/google/import` whose body is the request. -/
def importFromGoogleDrive (request : GoogleDriveImportRequest) :
    HttpRequest GoogleDriveImportRequest :=
  apiRequest
    { method := "POST"
      url := "/integrations/google/import"
      params := []
      data := some request }

/-- `getGoogleDriveConnectionStatus` from `googleDriveService.ts`, as a
function of the outcome of its underlying `apiRequest` call: a transport or
server error is caught and replaced by `{ connected: false, user_email:
null }`, so the promise always resolves. -/
def getGoogleDriveConnectionStatus
    (resp : Except String GoogleDriveConnectionStatus) :
    Except String GoogleDriveConnectionStatus :=
  match resp with
  | .ok r => .ok r
  | .error _ => .ok { connected := false, user_email := none }

/-! ### The response interceptor (`api.ts`) -/

/-- The browser-visible state the response interceptor touches:
`localStorage`'s `token` entry and `window.location.pathname`. -/
structure BrowserState where
  token : Option String
  pathname : String
  deriving DecidableEq, Repr

/-- What the interceptor's error branch does: possibly mutate storage,
possibly navigate, and propagate the rejection. -/
structure InterceptorEffect where
  state : BrowserState
  redirectTo : Option String
  rejectionPropagated : Bool
  deriving DecidableEq, Repr

/-- The response interceptor's error handler in `api.ts`:
`error.response?.status` is the optional HTTP status; on 401 it removes the
stored token and sets `window.location.href = '/login'` unless the current
pathname already is `/login`; in every case it returns
`Promise.reject(error)`. -/
def responseInterceptorOnError (status : Option Nat) (st : BrowserState) :
    InterceptorEffect :=
  if status = some 401 then
    { state := { st with token := none }
      redirectTo := if st.pathname ≠ "/login" then some "/login" else none
      rejectionPropagated := true }
  else
    { state := st, redirectTo := none, rejectionPropagated := true }

/-! ### Selection toggling and the import dialog (`GoogleDrivePage.tsx`) -/

/-- `toggleFileSelection` in `GoogleDrivePage.tsx`:
`prev.includes(fileId) ? prev.filter(id => id !== fileId) : [...prev, fileId]`. -/
def toggleFileSelection (fileId : String) (prev : List String) : List String :=
  if prev.contains fileId then prev.filter (fun id => id ≠ fileId)
  else prev ++ [fileId]

/-- JavaScript `parseInt(s, 10)`: skip leading whitespace, read an optional
sign and then a maximal run of decimal digits; `NaN` (here `none`) when no
digit follows. Trailing garbage is ignored. -/
def parseDecimalDigits (cs : List Char) : Option Nat :=
  let ds := cs.takeWhile Char.isDigit
  if ds.isEmpty then none
  else some (ds.foldl (fun a c => a * 10 + (c.toNat - 48)) 0)

/-- `parseInt(s, 10)` on the integer-valued inputs a number field produces. -/
def jsParseInt (s : String) : Option Int :=
  match s.data.dropWhile Char.isWhitespace with
  | '-' :: rest => (parseDecimalDigits rest).map (fun n => -(n : Int))
  | '+' :: rest => (parseDecimalDigits rest).map (fun n => (n : Int))
  | cs => (parseDecimalDigits cs).map (fun n => (n : Int))

/-- The depth field's change handler in `renderImportDialog`:
`setMaxDepth(parseInt(e.target.value, 10) || 1)` — `||` replaces the falsy
values `NaN` and `0` (including `-0`) by `1` and keeps anything else. -/
def maxDepthOnChange (s : String) : Int :=
  match jsParseInt s with
  | none => 1
  | some n => if n = 0 then 1 else n

/-- The import dialog's state in `GoogleDrivePage.tsx`, with its `useState`
initial values: `includeFolders` starts `true` and `maxDepth` starts `5`. -/
structure ImportDialogState where
  includeFolders : Bool
  maxDepth : Int
  deriving DecidableEq, Repr

/-- `useState(true)` / `useState(5)` initial dialog state. -/
def importDialogInit : ImportDialogState :=
  { includeFolders := true, maxDepth := 5 }

/-- `handleImport` in `GoogleDrivePage.tsx` builds the request from the
current selection and dialog state; it sets no `parent_folder_id`. -/
def handleImportRequest (selectedFiles : List String)
    (dialog : ImportDialogState) : GoogleDriveImportRequest :=
  { file_ids := selectedFiles
    parent_folder_id := none
    include_folders := some dialog.includeFolders
    max_depth := some dialog.maxDepth }

/-! ### Page rendering gates (`GoogleDrivePage.tsx`) -/

/-- The page state consulted by `renderConnectionStatus` and the main render:
loading flag and error of the status query, the credentials check result, the
connection status (absent while unloaded), and the current selection. -/
structure PageState where
  isLoadingStatus : Bool
  connectionError : Bool
  apiCredentialsValid : Option Bool
  connectionStatus : Option GoogleDriveConnectionStatus
  selectedFiles : List String
  deriving DecidableEq, Repr

/-- `connectionStatus?.connected` as used on the page: `false` while the
status has not loaded. -/
def pageConnected (s : PageState) : Bool :=
  match s.connectionStatus with
  | some cs => cs.connected
  | none => false

/-- The mutually exclusive panels `renderConnectionStatus` can return. -/
inductive ConnPanel where
  | checkingStatus
  | statusError
  | credentialsWarning
  | connectPrompt
  | connectedPanel (importButtonShown : Bool)
  deriving DecidableEq, Repr

/-- `renderConnectionStatus` in `GoogleDrivePage.tsx`, branch for branch:
loading → spinner; query error → error alert; `apiCredentialsValid === false`
→ warning with a disabled connect button; not connected → connect prompt;
otherwise the connected panel, whose import button is rendered exactly when
`selectedFiles.length > 0`. -/
def renderConnectionStatus (s : PageState) : ConnPanel :=
  if s.isLoadingStatus then .checkingStatus
  else if s.connectionError then .statusError
  else if s.apiCredentialsValid = some false then .credentialsWarning
  else if !pageConnected s then .connectPrompt
  else .connectedPanel (s.selectedFiles.length > 0)

/-- Whether the import action — the Import-N-items button that opens the
dialog — is rendered on the page. -/
def importActionRendered (s : PageState) : Bool :=
  match renderConnectionStatus s with
  | .connectedPanel shown => shown
  | _ => false

/-- The file browser block (breadcrumbs, search bar, files list) is rendered
under the guard `connectionStatus?.connected && (...)` in the page's
return. -/
def fileBrowserRendered (s : PageState) : Bool :=
  pageConnected s

/-! ### The backend Import Planner, modelled from the spec -/

/-- A node of the remote provider's file tree as observed at traversal time
(`RemoteItem`, §3 of the spec): a typed file or a folder with children. -/
inductive RemoteItem where
  | file (id : String)
  | folder (id : String) (children : List RemoteItem)

/-- An entry of the flattened import plan: a document or a folder. -/
inductive PlanEntry where
  | doc (id : String)
  | dir (id : String)
  deriving DecidableEq, Repr

/-- Modelled from the spec: the backend Import Planner (§4.2) is not part of
the frontend sources.  With recursion enabled it emits a requested item
pre-order: a file is emitted directly; a folder is emitted and, while the
current depth is below `max_depth`, its children are visited at depth + 1;
folders encountered at the depth limit are emitted but their contents are not
visited.  `fuel` is the remaining allowed descent, `max_depth - depth`: it is
zero exactly when the current depth has reached the limit. -/
def planItemFuel (t : RemoteItem) (fuel : Nat) : List PlanEntry :=
  match t with
  | .file id => [.doc id]
  | .folder id children =>
    .dir id ::
      (match fuel with
       | 0 => []
       | fuel' + 1 => children.flatMap (fun c => planItemFuel c fuel'))

/-- The plan for one requested root under a `max_depth` of `d`: the root
counts as depth 1 (spec §4.2 step 2), so `d - 1` further levels may be
descended into. -/
def planRoot (t : RemoteItem) (d : Nat) : List PlanEntry :=
  planItemFuel t (d - 1)

/-- `Occurs t e r`: the node described by the plan entry `e` occurs in the
remote tree `t` at relative depth `r` (the root itself at `r = 0`); its
remote ancestor-chain length from the requested root, counting the root as
depth 1, is `r + 1`. -/
inductive Occurs : RemoteItem → PlanEntry → Nat → Prop where
  | file (id : String) : Occurs (.file id) (.doc id) 0
  | folderSelf (id : String) (children : List RemoteItem) :
      Occurs (.folder id children) (.dir id) 0
  | child {c : RemoteItem} {e : PlanEntry} {r : Nat} (id : String)
      {children : List RemoteItem} :
      c ∈ children → Occurs c e r → Occurs (.folder id children) e (r + 1)

/-! ## Theorems -/

/-- C1: every `GoogleDriveImportResult` constructed by the import operation —
the import mutation's `onError` fallback, the `handleImport` catch fallback,
and the backend aggregator's report (modelled from the spec) — has
`total_documents_imported`, `total_folders_imported` and `total_skipped`
equal to the lengths of `imported_document_ids`, `imported_folder_ids` and
`skipped_items` respectively. -/
theorem c1_import_report_counts :
    (∀ error, countConsistent (importMutationErrorResult error)) ∧
    (∀ selectedFiles filesToDisplay,
      countConsistent (handleImportCatchResult selectedFiles filesToDisplay)) ∧
    (∀ outcomes, countConsistent (aggregateOutcomes outcomes)) := by
  refine ⟨fun error => ⟨rfl, rfl, rfl⟩,
          fun selectedFiles filesToDisplay =>
            ⟨rfl, rfl, by simp [handleImportCatchResult, countConsistent]⟩,
          fun outcomes => ?_⟩
  induction outcomes with
  | nil => exact ⟨rfl, rfl, rfl⟩
  | cons o os ih =>
    obtain ⟨h1, h2, h3⟩ := ih
    cases o <;> simp [aggregateOutcomes, countConsistent, h1, h2, h3]

/-- C5: confirming an import issues one POST whose final URL is the import
endpoint, whose body carries the selected ids, the `include_folders` flag and
`max_depth`, and whose body omits `parent_folder_id`. -/
theorem c5_import_post (selectedFiles : List String) (dialog : ImportDialogState) :
    (importFromGoogleDrive (handleImportRequest selectedFiles dialog)).method = "POST" ∧
    (importFromGoogleDrive (handleImportRequest selectedFiles dialog)).url =
      "/api/v1/integrations/google/import" ∧
    (importFromGoogleDrive (handleImportRequest selectedFiles dialog)).params = [] ∧
    (importFromGoogleDrive (handleImportRequest selectedFiles dialog)).data =
      some { file_ids := selectedFiles
             parent_folder_id := none
             include_folders := some dialog.includeFolders
             max_depth := some dialog.maxDepth } := by
  refine ⟨rfl, ?_, rfl, rfl⟩
  show apiRequestUrl "/integrations/google/import" = "/api/v1/integrations/google/import"
  decide

/-- C7: a freshly opened import dialog has `maxDepth` initialized to 5, so
the request built on confirm while the field is unedited carries
`max_depth = 5`. -/
theorem c7_default_depth (selectedFiles : List String) :
    importDialogInit.maxDepth = 5 ∧
    (handleImportRequest selectedFiles importDialogInit).max_depth = some 5 :=
  ⟨rfl, rfl⟩

/-- C8: `getGoogleDriveConnectionStatus` never rejects — the result is always
`ok`, and on any underlying error it is the fallback value
`{ connected: false, user_email: null }`. -/
theorem c8_status_never_rejects (resp : Except String GoogleDriveConnectionStatus) :
    (∃ r, getGoogleDriveConnectionStatus resp = .ok r) ∧
    (∀ e, resp = .error e →
      getGoogleDriveConnectionStatus resp =
        .ok { connected := false, user_email := none }) := by
  cases resp with
  | ok r => exact ⟨⟨r, rfl⟩, fun e h => by cases h⟩
  | error e => exact ⟨⟨_, rfl⟩, fun _ _ => rfl⟩

/-- Witness for C8 at a concrete transport error. -/
theorem c8_status_never_rejects_witness :
    getGoogleDriveConnectionStatus (.error "network down") =
      .ok { connected := false, user_email := none } :=
  (c8_status_never_rejects (.error "network down")).2 "network down" rfl

/-- C9: the response interceptor always propagates the rejection, and on HTTP
status 401 it removes the stored token and redirects to `/login` exactly when
the current path is not already `/login`. -/
theorem c9_interceptor_401 (status : Option Nat) (st : BrowserState) :
    (responseInterceptorOnError status st).rejectionPropagated = true ∧
    (status = some 401 →
      (responseInterceptorOnError status st).state.token = none ∧
      (st.pathname ≠ "/login" →
        (responseInterceptorOnError status st).redirectTo = some "/login") ∧
      (st.pathname = "/login" →
        (responseInterceptorOnError status st).redirectTo = none)) := by
  unfold responseInterceptorOnError
  by_cases h : status = some 401
  · by_cases hp : st.pathname = "/login" <;> simp [h, hp]
  · simp [h]

/-- Witness for C9: a 401 away from the login page clears the token and
redirects to `/login`. -/
theorem c9_interceptor_401_witness :
    (responseInterceptorOnError (some 401)
      { token := some "tok", pathname := "/documents" }).state.token = none ∧
    (responseInterceptorOnError (some 401)
      { token := some "tok", pathname := "/documents" }).redirectTo = some "/login" := by
  have h := c9_interceptor_401 (some 401) { token := some "tok", pathname := "/documents" }
  exact ⟨(h.2 rfl).1, (h.2 rfl).2.1 (by decide)⟩

/-- C3: when the connection status has `connected = false` the (spec-modelled)
backend import returns a top-level error and no report, and on the page both
the import action and the file browser are rendered only when
`connectionStatus?.connected` is true. -/
theorem c3_auth_gate (status : GoogleDriveConnectionStatus)
    (outcomes : List ImportOutcome) (s : PageState) :
    (status.connected = false → runImport status outcomes = .error "RemoteAuthError") ∧
    (importActionRendered s = true → pageConnected s = true) ∧
    (fileBrowserRendered s = true → pageConnected s = true) := by
  refine ⟨fun h => by simp [runImport, h], fun h => ?_, fun h => h⟩
  unfold importActionRendered renderConnectionStatus at h
  by_cases h1 : s.isLoadingStatus <;> by_cases h2 : s.connectionError <;>
    by_cases h3 : s.apiCredentialsValid = some false <;>
    by_cases h4 : pageConnected s <;>
    first
      | (simp [h1, h2, h3, h4] at h; exact h4)
      | simp [h1, h2, h3, h4] at h

/-- Witness for C3: the modelled import on a disconnected status is a
top-level `RemoteAuthError`, and a concrete connected page state with one
selected file renders the import action. -/
theorem c3_auth_gate_witness :
    runImport { connected := false, user_email := none } [] = .error "RemoteAuthError" ∧
    pageConnected
      { isLoadingStatus := false, connectionError := false,
        apiCredentialsValid := some true,
        connectionStatus := some { connected := true, user_email := some "u@example.com" },
        selectedFiles := ["f1"] } = true := by
  constructor
  · exact (c3_auth_gate { connected := false, user_email := none } []
      { isLoadingStatus := false, connectionError := false,
        apiCredentialsValid := some true,
        connectionStatus := some { connected := true, user_email := some "u@example.com" },
        selectedFiles := ["f1"] }).1 rfl
  · exact (c3_auth_gate { connected := false, user_email := none } []
      { isLoadingStatus := false, connectionError := false,
        apiCredentialsValid := some true,
        connectionStatus := some { connected := true, user_email := some "u@example.com" },
        selectedFiles := ["f1"] }).2.1 (by decide)

/-- C6 counterexample: calling `listGoogleDriveFiles` with the provided (but
empty) folder id `""` sends no `folder_id` parameter, though the claim says a
provided `folderId` always yields the parameter — JavaScript truthiness drops
the empty string. -/
theorem c6_counterexample :
    (some "" : Option String).isSome = true ∧
    hasParam (listGoogleDriveFiles (some "") none) "folder_id" = false := by
  refine ⟨rfl, ?_⟩
  decide

/-- C6 (amended): `listGoogleDriveFiles` sends `folder_id` iff `folderId` is
provided and non-empty (JavaScript-truthy), sends `page_token` iff
`pageToken` is provided and non-empty, and always addresses
`/api/v1/integrations/google/files`; with both arguments absent the request
carries no parameters, addressing the provider's root. -/
theorem c6_list_files_params (folderId pageToken : Option String) :
    hasParam (listGoogleDriveFiles folderId pageToken) "folder_id" = jsTruthyStr folderId ∧
    hasParam (listGoogleDriveFiles folderId pageToken) "page_token" = jsTruthyStr pageToken ∧
    (listGoogleDriveFiles folderId pageToken).url = "/api/v1/integrations/google/files" ∧
    (listGoogleDriveFiles none none).params = [] := by
  refine ⟨?_, ?_, ?_, by decide⟩
  · by_cases t1 : jsTruthyStr folderId <;> by_cases t2 : jsTruthyStr pageToken <;>
      simp [listGoogleDriveFiles, apiRequest, hasParam, t1, t2]
  · by_cases t1 : jsTruthyStr folderId <;> by_cases t2 : jsTruthyStr pageToken <;>
      simp [listGoogleDriveFiles, apiRequest, hasParam, t1, t2]
  · show apiRequestUrl "/integrations/google/files" = "/api/v1/integrations/google/files"
    decide

/-- C4 counterexample: entering `"-3"` in the depth field stores `-3` —
`parseInt('-3', 10)` is `-3`, which is truthy, so the `|| 1` fallback does
not fire and the stored depth is not a positive integer. -/
theorem c4_counterexample :
    maxDepthOnChange "-3" = -3 ∧ ¬ (0 < maxDepthOnChange "-3") := by
  refine ⟨by decide, by decide⟩

/-- C4 (amended): the depth value stored by the change handler is a positive
integer whenever `parseInt` of the input does not yield a negative number (in
particular for every input parsing to `NaN`, `0` or a nonnegative integer);
an input parsing to a negative integer is stored as-is. -/
theorem c4_depth_positive (s : String)
    (h : ∀ n, jsParseInt s = some n → 0 ≤ n) :
    0 < maxDepthOnChange s := by
  unfold maxDepthOnChange
  cases hp : jsParseInt s with
  | none => decide
  | some n =>
    have hn := h n hp
    by_cases h0 : n = 0
    · simp [h0]
    · simp only [h0, if_false]
      omega

/-- Witness for C4 at the unedited numeric input `"7"`. -/
theorem c4_depth_positive_witness : 0 < maxDepthOnChange "7" :=
  c4_depth_positive "7" (fun n hn => by
    have h7 : jsParseInt "7" = some 7 := by decide
    rw [h7] at hn
    simp at hn
    omega)

/-- C10 counterexample: on the duplicate-free selection `["a", "b"]`,
toggling `"a"` twice yields `["b", "a"]`, not the original list — removal
filters the id out of the middle and re-adding appends it at the end, so the
toggle is not an involution. -/
theorem c10_counterexample :
    List.Nodup ["a", "b"] ∧
    toggleFileSelection "a" (toggleFileSelection "a" ["a", "b"]) = ["b", "a"] ∧
    toggleFileSelection "a" (toggleFileSelection "a" ["a", "b"]) ≠ ["a", "b"] := by
  refine ⟨by decide, by decide, by decide⟩

/-- Toggling an id that is contained in a duplicate-free list and then
toggling it again yields a permutation of the original list. -/
theorem toggle_filter_append_perm (a : String) (l : List String)
    (hmem : a ∈ l) (hnd : l.Nodup) :
    (l.filter (fun id => id ≠ a) ++ [a]).Perm l := by
  induction l with
  | nil => cases hmem
  | cons b t ih =>
    by_cases hab : b = a
    · subst hab
      have hbt : b ∉ t := (List.nodup_cons.mp hnd).1
      have ht : t.filter (fun id => id ≠ b) = t :=
        List.filter_eq_self.mpr (fun x hx => by
          simp only [decide_eq_true_eq]
          exact fun hxb => hbt (hxb ▸ hx))
      simp only [List.filter_cons, decide_eq_true_eq]
      rw [if_neg (by simp), ht]
      exact List.perm_append_singleton b t
    · have hat : a ∈ t := by
        cases List.mem_cons.mp hmem with
        | inl h => exact absurd h.symm hab
        | inr h => exact h
      have ih' := ih hat (List.nodup_cons.mp hnd).2
      simp only [List.filter_cons, decide_eq_true_eq]
      rw [if_pos hab]
      exact (List.cons_append b _ [a]) ▸ (ih'.cons b)

/-- C10 (amended): on a duplicate-free selection, applying the toggle twice
yields a permutation of the original list (the same selection as a set; the
list itself only when the id was absent or last), and applying it once
preserves duplicate-freeness. -/
theorem c10_toggle_selection (l : List String) (a : String) (h : l.Nodup) :
    (toggleFileSelection a (toggleFileSelection a l)).Perm l ∧
    (toggleFileSelection a l).Nodup := by
  by_cases hmem : a ∈ l
  · have hc : l.contains a = true := List.elem_eq_true_of_mem hmem
    have hstep : toggleFileSelection a l = l.filter (fun id => id ≠ a) := by
      unfold toggleFileSelection
      rw [if_pos hc]
    have hnotmem : a ∉ l.filter (fun id => id ≠ a) := by
      intro hx
      have := (List.mem_filter.mp hx).2
      simp at this
    have hc2 : (l.filter (fun id => id ≠ a)).contains a = false := by
      cases hcc : (l.filter (fun id => id ≠ a)).contains a with
      | false => rfl
      | true => exact absurd (List.mem_of_elem_eq_true hcc) hnotmem
    constructor
    · rw [hstep]
      unfold toggleFileSelection
      rw [if_neg (by simp [hc2])]
      exact toggle_filter_append_perm a l hmem h
    · rw [hstep]
      exact h.filter _
  · have hc : l.contains a = false := by
      cases hcc : l.contains a with
      | false => rfl
      | true => exact absurd (List.mem_of_elem_eq_true hcc) hmem
    have hstep : toggleFileSelection a l = l ++ [a] := by
      unfold toggleFileSelection
      rw [if_neg (by rw [hc]; decide)]
    constructor
    · rw [hstep]
      unfold toggleFileSelection
      rw [if_pos (List.elem_eq_true_of_mem (by simp))]
      have : (l ++ [a]).filter (fun id => id ≠ a) = l := by
        rw [List.filter_append]
        have h1 : l.filter (fun id => id ≠ a) = l :=
          List.filter_eq_self.mpr (fun x hx => by
            simp only [decide_eq_true_eq]
            exact fun hxa => hmem (hxa ▸ hx))
        have h2 : ([a].filter (fun id => id ≠ a)) = [] := by simp
        rw [h1, h2, List.append_nil]
      rw [this]
    · rw [hstep]
      rw [List.nodup_append]
      refine ⟨h, List.nodup_singleton a, fun x hx hxa => hmem ?_⟩
      simp only [List.mem_singleton] at hxa
      exact hxa ▸ hx

/-- Witness for C10 on the duplicate-free selection `["a", "b"]` with id
`"b"`. -/
theorem c10_toggle_selection_witness :
    (toggleFileSelection "b" (toggleFileSelection "b" ["a", "b"])).Perm ["a", "b"] ∧
    (toggleFileSelection "b" ["a", "b"]).Nodup :=
  c10_toggle_selection ["a", "b"] "b" (by decide)

/-- Soundness of the planner: every emitted entry is a node of the tree at
relative depth at most the available fuel. -/
theorem planItemFuel_sound (fuel : Nat) :
    ∀ (t : RemoteItem) (e : PlanEntry), e ∈ planItemFuel t fuel →
      ∃ r, Occurs t e r ∧ r ≤ fuel := by
  induction fuel with
  | zero =>
    intro t e he
    cases t with
    | file id =>
      simp [planItemFuel] at he
      exact ⟨0, he ▸ Occurs.file id, Nat.le_refl 0⟩
    | folder id children =>
      simp [planItemFuel] at he
      exact ⟨0, he ▸ Occurs.folderSelf id children, Nat.le_refl 0⟩
  | succ fuel' ih =>
    intro t e he
    cases t with
    | file id =>
      simp [planItemFuel] at he
      exact ⟨0, he ▸ Occurs.file id, Nat.zero_le _⟩
    | folder id children =>
      simp only [planItemFuel, List.mem_cons] at he
      cases he with
      | inl h => exact ⟨0, h ▸ Occurs.folderSelf id children, Nat.zero_le _⟩
      | inr h =>
        obtain ⟨c, hc, he'⟩ := List.mem_flatMap.mp h
        obtain ⟨r, ho, hr⟩ := ih c e he'
        exact ⟨r + 1, Occurs.child id hc ho, Nat.succ_le_succ hr⟩

/-- Completeness of the planner: every node within the fuel bound is
emitted. -/
theorem planItemFuel_complete {t : RemoteItem} {e : PlanEntry} {r : Nat}
    (h : Occurs t e r) :
    ∀ fuel, r ≤ fuel → e ∈ planItemFuel t fuel := by
  induction h with
  | file id => intro fuel _; cases fuel <;> simp [planItemFuel]
  | folderSelf id children => intro fuel _; cases fuel <;> simp [planItemFuel]
  | child id hc _ ih =>
    intro fuel hf
    cases fuel with
    | zero => omega
    | succ fuel' =>
      simp only [planItemFuel, List.mem_cons]
      exact Or.inr (List.mem_flatMap.mpr ⟨_, hc, ih fuel' (by omega)⟩)

/-- C2: for a requested root planned under `max_depth = d` (the root at
depth 1), every emitted entry — in particular every document — lies at
remote ancestor-chain length at most `d`; every folder at exactly depth `d`
is emitted; and a node all of whose occurrences lie deeper than `d` (for
instance any child of a folder at depth `d`) is not visited. -/
theorem c2_depth_bound (t : RemoteItem) (d : Nat) (hd : 1 ≤ d) :
    (∀ e, e ∈ planRoot t d → ∃ r, Occurs t e r ∧ r + 1 ≤ d) ∧
    (∀ id r, Occurs t (.dir id) r → r + 1 = d → PlanEntry.dir id ∈ planRoot t d) ∧
    (∀ e, (∀ r, Occurs t e r → d < r + 1) → e ∉ planRoot t d) := by
  refine ⟨?_, ?_, ?_⟩
  · intro e he
    obtain ⟨r, ho, hr⟩ := planItemFuel_sound (d - 1) t e he
    exact ⟨r, ho, by omega⟩
  · intro id r ho hr
    exact planItemFuel_complete ho (d - 1) (by omega)
  · intro e hdeep he
    obtain ⟨r, ho, hr⟩ := planItemFuel_sound (d - 1) t e he
    exact absurd (hdeep r ho) (by omega)

/-- Witness for C2 on the tree `folder "r" [folder "s" [file "x"]]` with
`max_depth = 1`: the root folder, at exactly the depth limit, is planned. -/
theorem c2_depth_bound_witness :
    PlanEntry.dir "r" ∈
      planRoot (.folder "r" [.folder "s" [.file "x"]]) 1 :=
  (c2_depth_bound (.folder "r" [.folder "s" [.file "x"]]) 1 (by decide)).2.1
    "r" 0 (Occurs.folderSelf "r" [.folder "s" [.file "x"]]) rfl

end DataRoom
